import Mathlib

/-!
Verification of the configuration/registration layer in
`cc/core/config.cc` (Tink C++).

The file embeds the four functions of `Config`
(`GetTinkKeyTypeEntry`, `Validate`, `Register`, `RegisterWrapper`)
shallowly.  The external collaborators (`MacConfig::Register`,
`AeadConfig::Register`, `DeterministicAeadConfig::Register`,
`HybridConfig::Register`, `SignatureConfig::Register`,
`StreamingAeadConfig::Register`) mutate process-wide registry state, so
they are modelled as a stateful oracle `reg : σ → Family → Status × σ`:
calling family `f`'s registration action in registry state `st` yields a
`Status` and the new state.  Every delegate invocation is additionally
recorded in a trace of `Call`s, tagged by the call site (the inline
key-manager dispatch inside `Config::Register`, or
`Config::RegisterWrapper`).
-/

set_option autoImplicit false

/-- Error codes of `util::Status` that matter here: `INVALID_ARGUMENT`
is produced by `config.cc` itself; the other codes stand for whatever a
delegate registration action may return. -/
inductive ErrorCode where
  | INVALID_ARGUMENT
  | INTERNAL
  | UNKNOWN
  deriving DecidableEq

/-- `util::Status`: either OK or an error code with a message. -/
inductive Status where
  | ok
  | err (code : ErrorCode) (message : String)
  deriving DecidableEq

/-- `status.ok()` of `util::Status`. -/
def Status.isOk : Status → Bool
  | .ok => true
  | .err _ _ => false

/-- The proto message `google::crypto::tink::KeyTypeEntry`
(the five fields read or written by `config.cc`). -/
structure KeyTypeEntry where
  catalogue_name : String
  primitive_name : String
  type_url : String
  key_manager_version : Nat
  new_key_allowed : Bool
  deriving DecidableEq

/-- The six primitive families `config.cc` can dispatch to; each value
stands for one delegate (`MacConfig::Register`, `AeadConfig::Register`,
`DeterministicAeadConfig::Register`, `HybridConfig::Register`,
`SignatureConfig::Register`, `StreamingAeadConfig::Register`). -/
inductive Family where
  | mac
  | aead
  | deterministicAead
  | hybrid
  | signature
  | streamingAead
  deriving DecidableEq

/-- One recorded delegate invocation, tagged by its call site:
`keyManager f` is the inline dispatch inside `Config::Register`
(the key-manager registration step), `wrapper f` is the call made from
`Config::RegisterWrapper` (the wrapper registration step).  Both call
sites invoke family `f`'s single registration action. -/
inductive Call where
  | keyManager (f : Family)
  | wrapper (f : Family)
  deriving DecidableEq

/-- The family whose registration action a recorded call invoked. -/
def Call.family : Call → Family
  | .keyManager f => f
  | .wrapper f => f

/-- `absl::AsciiStrToLower` on one character: ASCII uppercase letters
are mapped to lowercase, all other characters unchanged. -/
def asciiCharToLower (c : Char) : Char :=
  if 'A' ≤ c ∧ c ≤ 'Z' then Char.ofNat (c.toNat + 32) else c

/-- `absl::AsciiStrToLower`. -/
def AsciiStrToLower (s : String) : String :=
  String.mk (s.data.map asciiCharToLower)

namespace Config

/-- `Config::GetTinkKeyTypeEntry` (config.cc, lines 37-51): builds a
`KeyTypeEntry` whose `type_url` is the fixed namespace
`type.googleapis.com/google.crypto.tink.` with the key proto name
appended. -/
def GetTinkKeyTypeEntry (catalogue_name primitive_name key_proto_name : String)
    (key_manager_version : Nat) (new_key_allowed : Bool) : KeyTypeEntry :=
  { catalogue_name := catalogue_name
    primitive_name := primitive_name
    type_url := "type.googleapis.com/google.crypto.tink." ++ key_proto_name
    key_manager_version := key_manager_version
    new_key_allowed := new_key_allowed }

/-- `Config::Validate` (config.cc, lines 54-68): checks `type_url`,
then `primitive_name`, then `catalogue_name` for emptiness, returning
a distinct `INVALID_ARGUMENT` for the first empty field. -/
def Validate (entry : KeyTypeEntry) : Status :=
  if entry.type_url.isEmpty then
    Status.err .INVALID_ARGUMENT "Missing type_url."
  else if entry.primitive_name.isEmpty then
    Status.err .INVALID_ARGUMENT "Missing primitive_name."
  else if entry.catalogue_name.isEmpty then
    Status.err .INVALID_ARGUMENT "Missing catalogue_name."
  else
    Status.ok

/-- `Config::RegisterWrapper` (config.cc, lines 109-135): exact string
dispatch on the (expected already lowercase) primitive name; the
matching family's registration action is invoked, an unknown name gets
an `INVALID_ARGUMENT` without any delegate call. -/
def RegisterWrapper {σ : Type} (reg : σ → Family → Status × σ) (st : σ)
    (lowercase_primitive_name : String) : Status × σ × List Call :=
  if lowercase_primitive_name = "mac" then
    ((reg st .mac).1, (reg st .mac).2, [Call.wrapper .mac])
  else if lowercase_primitive_name = "aead" then
    ((reg st .aead).1, (reg st .aead).2, [Call.wrapper .aead])
  else if lowercase_primitive_name = "deterministicaead" then
    ((reg st .deterministicAead).1, (reg st .deterministicAead).2,
      [Call.wrapper .deterministicAead])
  else if lowercase_primitive_name = "hybridencrypt" ∨
      lowercase_primitive_name = "hybriddecrypt" then
    ((reg st .hybrid).1, (reg st .hybrid).2, [Call.wrapper .hybrid])
  else if lowercase_primitive_name = "publickeysign" ∨
      lowercase_primitive_name = "publickeyverify" then
    ((reg st .signature).1, (reg st .signature).2, [Call.wrapper .signature])
  else if lowercase_primitive_name = "streamingaead" then
    ((reg st .streamingAead).1, (reg st .streamingAead).2,
      [Call.wrapper .streamingAead])
  else
    (Status.err .INVALID_ARGUMENT
      ("Cannot register primitive wrapper for non-standard primitive "
        ++ lowercase_primitive_name
        ++ " (call Registry::RegisterPrimitiveWrapper directly)"),
      st, [])

/-- The loop body of `Config::Register` (config.cc, lines 73-104) for a
single entry: lowercase the primitive name, dispatch the key-manager
registration through the inline if-chain, and if it succeeded run
`RegisterWrapper` on the lowercased name. -/
def registerEntryBody {σ : Type} (reg : σ → Family → Status × σ) (st : σ)
    (entry : KeyTypeEntry) : Status × σ × List Call :=
  let primitive_name := AsciiStrToLower entry.primitive_name
  let km : Status × σ × List Call :=
    if primitive_name = "mac" then
      ((reg st .mac).1, (reg st .mac).2, [Call.keyManager .mac])
    else if primitive_name = "aead" then
      ((reg st .aead).1, (reg st .aead).2, [Call.keyManager .aead])
    else if primitive_name = "deterministicaead" then
      ((reg st .deterministicAead).1, (reg st .deterministicAead).2,
        [Call.keyManager .deterministicAead])
    else if primitive_name = "hybridencrypt" ∨
        primitive_name = "hybriddecrypt" then
      ((reg st .hybrid).1, (reg st .hybrid).2, [Call.keyManager .hybrid])
    else if primitive_name = "publickeysign" ∨
        primitive_name = "publickeyverify" then
      ((reg st .signature).1, (reg st .signature).2, [Call.keyManager .signature])
    else if primitive_name = "streamingaead" then
      ((reg st .streamingAead).1, (reg st .streamingAead).2,
        [Call.keyManager .streamingAead])
    else
      (Status.err .INVALID_ARGUMENT
        ("A non-standard primitive '" ++ entry.primitive_name ++ "' '"
          ++ primitive_name ++ "', use directly Config::Register<P>(KeyTypeEntry&)."),
        st, [])
  if km.1.isOk then
    let w := RegisterWrapper reg km.2.1 primitive_name
    (w.1, w.2.1, km.2.2 ++ w.2.2)
  else
    km

/-- `Config::Register` (config.cc, lines 71-106): iterate over the
configuration's entries in order, stopping at the first entry whose
key-manager or wrapper registration returned a non-OK status and
returning that status. -/
def Register {σ : Type} (reg : σ → Family → Status × σ) (st : σ) :
    List KeyTypeEntry → Status × σ × List Call
  | [] => (Status.ok, st, [])
  | entry :: rest =>
    let r := registerEntryBody reg st entry
    if r.1.isOk then
      let r2 := Register reg r.2.1 rest
      (r2.1, r2.2.1, r.2.2 ++ r2.2.2)
    else
      r

/-- The family resolution implicit in the if-chain of `Config::Register`
(config.cc, lines 77-100): which family the key-manager dispatch selects
for a given lowercased primitive name, `none` for the final else. -/
def registerFamilyTable (primitive_name : String) : Option Family :=
  if primitive_name = "mac" then some .mac
  else if primitive_name = "aead" then some .aead
  else if primitive_name = "deterministicaead" then some .deterministicAead
  else if primitive_name = "hybridencrypt" ∨
      primitive_name = "hybriddecrypt" then some .hybrid
  else if primitive_name = "publickeysign" ∨
      primitive_name = "publickeyverify" then some .signature
  else if primitive_name = "streamingaead" then some .streamingAead
  else none

/-- The family resolution implicit in the if-chain of
`Config::RegisterWrapper` (config.cc, lines 111-127). -/
def wrapperFamilyTable (lowercase_primitive_name : String) : Option Family :=
  if lowercase_primitive_name = "mac" then some .mac
  else if lowercase_primitive_name = "aead" then some .aead
  else if lowercase_primitive_name = "deterministicaead" then
    some .deterministicAead
  else if lowercase_primitive_name = "hybridencrypt" ∨
      lowercase_primitive_name = "hybriddecrypt" then some .hybrid
  else if lowercase_primitive_name = "publickeysign" ∨
      lowercase_primitive_name = "publickeyverify" then some .signature
  else if lowercase_primitive_name = "streamingaead" then
    some .streamingAead
  else none

end Config

/-- A registry oracle whose registration actions always succeed; used to
instantiate universally quantified theorems at a concrete delegate. -/
def allOkOracle : Unit → Family → Status × Unit :=
  fun _ _ => (Status.ok, ())

/-- A registry oracle whose AEAD registration action fails and whose
other actions succeed. -/
def aeadFailsOracle : Unit → Family → Status × Unit :=
  fun _ fam =>
    (if fam = Family.aead then Status.err .INTERNAL "delegate failure"
     else Status.ok, ())

/-- The two if-chains of config.cc resolve names identically: the
dispatch table of `Config::Register` and that of
`Config::RegisterWrapper` are the same function. -/
theorem Config.familyTable_eq (n : String) :
    Config.registerFamilyTable n = Config.wrapperFamilyTable n := rfl

/-- Characterization of `Config::RegisterWrapper` through its dispatch
table: a resolved name invokes that family's registration action once;
an unresolved name returns `INVALID_ARGUMENT` with no delegate call and
an unchanged registry. -/
theorem Config.wrapper_spec {σ : Type} (reg : σ → Family → Status × σ) (st : σ)
    (n : String) :
    Config.RegisterWrapper reg st n =
      match Config.wrapperFamilyTable n with
      | some f => ((reg st f).1, (reg st f).2, [Call.wrapper f])
      | none =>
        (Status.err .INVALID_ARGUMENT
          ("Cannot register primitive wrapper for non-standard primitive "
            ++ n ++ " (call Registry::RegisterPrimitiveWrapper directly)"),
          st, []) := by
  unfold Config.RegisterWrapper Config.wrapperFamilyTable
  split_ifs <;> rfl

/-- Characterization of the loop body of `Config::Register` through the
dispatch table: a resolved family's action is called once as the
key-manager step and, if that call returned OK, once more as the
wrapper step; an unresolved name produces `INVALID_ARGUMENT` with no
delegate call. -/
theorem Config.entryBody_spec {σ : Type} (reg : σ → Family → Status × σ)
    (st : σ) (entry : KeyTypeEntry) :
    Config.registerEntryBody reg st entry =
      match Config.registerFamilyTable (AsciiStrToLower entry.primitive_name) with
      | some f =>
        if (reg st f).1.isOk then
          ((reg (reg st f).2 f).1, (reg (reg st f).2 f).2,
            [Call.keyManager f, Call.wrapper f])
        else
          ((reg st f).1, (reg st f).2, [Call.keyManager f])
      | none =>
        (Status.err .INVALID_ARGUMENT
          ("A non-standard primitive '" ++ entry.primitive_name ++ "' '"
            ++ AsciiStrToLower entry.primitive_name
            ++ "', use directly Config::Register<P>(KeyTypeEntry&)."),
          st, []) := by
  simp only [Config.registerEntryBody, Config.wrapper_spec,
    Config.registerFamilyTable, Config.wrapperFamilyTable]
  split_ifs <;> simp_all [Status.isOk]

/-- Appending after an all-OK portion: when `Register` succeeds on `pre`, a
longer configuration continues from `pre`'s final registry state and its
trace extends `pre`'s. -/
theorem Config.register_append_of_ok {σ : Type} (reg : σ → Family → Status × σ)
    (st : σ) (pre rest : List KeyTypeEntry)
    (h : (Config.Register reg st pre).1 = Status.ok) :
    Config.Register reg st (pre ++ rest) =
      ((Config.Register reg (Config.Register reg st pre).2.1 rest).1,
       (Config.Register reg (Config.Register reg st pre).2.1 rest).2.1,
       (Config.Register reg st pre).2.2
         ++ (Config.Register reg (Config.Register reg st pre).2.1 rest).2.2) := by
  induction pre generalizing st with
  | nil => simp [Config.Register]
  | cons e pre ih =>
    simp only [List.cons_append, Config.Register, List.append_eq] at h ⊢
    by_cases hb : (Config.registerEntryBody reg st e).1.isOk = true
    · simp only [if_pos hb] at h ⊢
      rw [ih _ h]
      simp [List.append_assoc]
    · simp only [if_neg hb] at h
      rw [h] at hb
      simp [Status.isOk] at hb

/-- The loop body of `Config::Register` reads nothing of an entry except
its `primitive_name`. -/
theorem Config.entryBody_primitive_name_only {σ : Type}
    (reg : σ → Family → Status × σ) (st : σ) (e₁ e₂ : KeyTypeEntry)
    (h : e₁.primitive_name = e₂.primitive_name) :
    Config.registerEntryBody reg st e₁ = Config.registerEntryBody reg st e₂ := by
  unfold Config.registerEntryBody
  rw [h]


/-- C6: `GetTinkKeyTypeEntry` returns a descriptor whose `type_url` is
the fixed prefix string `type.googleapis.com/google.crypto.tink.`
concatenated with the key proto name, and whose other four fields equal
the given arguments; the `SomeCatalogue`/`Aead`/`AesGcmKey` instance has
`type_url` `type.googleapis.com/google.crypto.tink.AesGcmKey` and passes
`Validate`. -/
theorem Config.getTinkKeyTypeEntry_fields (c p k : String) (v : Nat) (b : Bool) :
    (Config.GetTinkKeyTypeEntry c p k v b).type_url
        = "type.googleapis.com/google.crypto.tink." ++ k
    ∧ (Config.GetTinkKeyTypeEntry c p k v b).catalogue_name = c
    ∧ (Config.GetTinkKeyTypeEntry c p k v b).primitive_name = p
    ∧ (Config.GetTinkKeyTypeEntry c p k v b).key_manager_version = v
    ∧ (Config.GetTinkKeyTypeEntry c p k v b).new_key_allowed = b
    ∧ (Config.GetTinkKeyTypeEntry "SomeCatalogue" "Aead" "AesGcmKey" 0 true).type_url
        = "type.googleapis.com/google.crypto.tink.AesGcmKey"
    ∧ Config.Validate (Config.GetTinkKeyTypeEntry "SomeCatalogue" "Aead" "AesGcmKey" 0 true)
        = Status.ok :=
  ⟨rfl, rfl, rfl, rfl, rfl, by decide, by decide⟩

/-- C7: `RegisterWrapper` applied directly to the string `aead`, with no
prior `Register` call and no descriptor, performs exactly the AEAD
family's registration action and returns that delegate's status; it
reads nothing besides its string argument and the registry. -/
theorem Config.registerWrapper_aead_direct {σ : Type}
    (reg : σ → Family → Status × σ) (st : σ) :
    Config.RegisterWrapper reg st "aead"
      = ((reg st Family.aead).1, (reg st Family.aead).2,
          [Call.wrapper Family.aead]) := by
  rw [Config.wrapper_spec,
    show Config.wrapperFamilyTable "aead" = some Family.aead from by decide]

/-- C5: descriptors named `HybridEncrypt` and `hybriddecrypt` resolve to
the same primitive family (`hybrid`) and lead `Register` to the identical
registration behaviour; likewise `publickeysign` and `publickeyverify`
resolve to the one shared `signature` registration action. -/
theorem Config.hybrid_signature_alias_pairs {σ : Type}
    (reg : σ → Family → Status × σ) (st : σ) (c t c' t' : String)
    (v v' : Nat) (b b' : Bool) :
    Config.Register reg st [⟨c, "HybridEncrypt", t, v, b⟩]
      = Config.Register reg st [⟨c', "hybriddecrypt", t', v', b'⟩]
    ∧ Config.registerFamilyTable (AsciiStrToLower "HybridEncrypt") = some Family.hybrid
    ∧ Config.registerFamilyTable (AsciiStrToLower "hybriddecrypt") = some Family.hybrid
    ∧ Config.Register reg st [⟨c, "publickeysign", t, v, b⟩]
      = Config.Register reg st [⟨c', "publickeyverify", t', v', b'⟩]
    ∧ Config.registerFamilyTable (AsciiStrToLower "publickeysign") = some Family.signature
    ∧ Config.registerFamilyTable (AsciiStrToLower "publickeyverify") = some Family.signature := by
  refine ⟨rfl, by decide, by decide, rfl, by decide, by decide⟩

/-- C4: a descriptor whose lowercased `primitive_name` resolves to no
known family makes `Register` return `INVALID_ARGUMENT` with a message
naming the primitive and pointing at `Config::Register<P>(KeyTypeEntry&)`,
with no delegate call and an unchanged registry. -/
theorem Config.register_unknown_primitive_rejected {σ : Type}
    (reg : σ → Family → Status × σ) (st : σ) (e : KeyTypeEntry)
    (h : Config.registerFamilyTable (AsciiStrToLower e.primitive_name) = none) :
    Config.Register reg st [e]
      = (Status.err .INVALID_ARGUMENT
          ("A non-standard primitive '" ++ e.primitive_name ++ "' '"
            ++ AsciiStrToLower e.primitive_name
            ++ "', use directly Config::Register<P>(KeyTypeEntry&)."),
          st, []) := by
  simp only [Config.Register, Config.entryBody_spec, h]
  simp [Status.isOk]

/-- Concrete run for C4: the name `CustomMac` is rejected with no
delegate call. -/
theorem Config.register_unknown_primitive_rejected_witness :
    Config.Register allOkOracle ()
      [⟨"SomeCatalogue", "CustomMac",
        "type.googleapis.com/google.crypto.tink.MyKey", 0, true⟩]
      = (Status.err .INVALID_ARGUMENT
          ("A non-standard primitive 'CustomMac' 'custommac', "
            ++ "use directly Config::Register<P>(KeyTypeEntry&)."),
          (), []) :=
  Config.register_unknown_primitive_rejected allOkOracle () _ (by decide)

/-- C1: a valid descriptor whose lowercased `primitive_name` resolves to
family `f` makes `Register` perform exactly one key-manager registration
call and exactly one wrapper registration call for `f`, and return OK
when both delegate calls return OK. -/
theorem Config.register_known_entry_once {σ : Type}
    (reg : σ → Family → Status × σ) (st : σ) (e : KeyTypeEntry) (f : Family)
    (hval : Config.Validate e = Status.ok)
    (hfam : Config.registerFamilyTable (AsciiStrToLower e.primitive_name) = some f)
    (hkm : (reg st f).1 = Status.ok)
    (hw : (reg (reg st f).2 f).1 = Status.ok) :
    Config.Register reg st [e]
      = (Status.ok, (reg (reg st f).2 f).2,
          [Call.keyManager f, Call.wrapper f]) := by
  simp only [Config.Register, Config.entryBody_spec, hfam, hkm]
  simp [Status.isOk, hw]

/-- Concrete run for C1: a valid `Mac` descriptor against an all-OK
registry registers the MAC family once at each step and succeeds. -/
theorem Config.register_known_entry_once_witness :
    Config.Validate (Config.GetTinkKeyTypeEntry "SomeCatalogue" "Mac" "HmacKey" 0 true)
        = Status.ok
    ∧ Config.Register allOkOracle ()
        [Config.GetTinkKeyTypeEntry "SomeCatalogue" "Mac" "HmacKey" 0 true]
        = (Status.ok, (), [Call.keyManager Family.mac, Call.wrapper Family.mac]) :=
  ⟨by decide,
   Config.register_known_entry_once allOkOracle () _ Family.mac
     (by decide) (by decide) rfl rfl⟩

/-- C3: `Validate` succeeds exactly when `type_url`, `primitive_name`
and `catalogue_name` are all non-empty; otherwise it reports exactly the
first empty field in the order `type_url`, `primitive_name`,
`catalogue_name`, each with its own distinct message.  `Validate` is a
pure function of the descriptor: it touches no registry state. -/
theorem Config.validate_first_empty_field (e : KeyTypeEntry) :
    (Config.Validate e = Status.ok ↔
      e.type_url ≠ "" ∧ e.primitive_name ≠ "" ∧ e.catalogue_name ≠ "")
    ∧ (e.type_url = "" →
        Config.Validate e = Status.err .INVALID_ARGUMENT "Missing type_url.")
    ∧ (e.type_url ≠ "" → e.primitive_name = "" →
        Config.Validate e = Status.err .INVALID_ARGUMENT "Missing primitive_name.")
    ∧ (e.type_url ≠ "" → e.primitive_name ≠ "" → e.catalogue_name = "" →
        Config.Validate e = Status.err .INVALID_ARGUMENT "Missing catalogue_name.") := by
  simp only [Config.Validate]
  split_ifs with h1 h2 h3 <;> simp_all [String.isEmpty_iff]

/-- Concrete run for C3: with `type_url` present and `primitive_name`
empty, `Validate` names exactly `primitive_name`. -/
theorem Config.validate_first_empty_field_witness :
    Config.Validate ⟨"SomeCatalogue", "", "type.googleapis.com/x", 0, true⟩
      = Status.err .INVALID_ARGUMENT "Missing primitive_name." :=
  (Config.validate_first_empty_field _).2.2.1 (by decide) rfl

/-- C2: when every entry before `e` succeeds and `e`'s registration step
fails, `Register` returns `e`'s error, the delegate calls for the prefix
have already happened (they are in the trace and in the final registry
state), no entry after `e` contributes anything, and if `e`'s key-manager
step failed the wrapper step for `e` is never invoked. -/
theorem Config.register_stops_at_first_failure {σ : Type}
    (reg : σ → Family → Status × σ) (st : σ)
    (pre : List KeyTypeEntry) (e : KeyTypeEntry) (post : List KeyTypeEntry)
    (f : Family)
    (hfam : Config.registerFamilyTable (AsciiStrToLower e.primitive_name) = some f)
    (hpre : (Config.Register reg st pre).1 = Status.ok)
    (hfail : (Config.registerEntryBody reg (Config.Register reg st pre).2.1 e).1.isOk
      = false) :
    Config.Register reg st (pre ++ e :: post)
      = ((Config.registerEntryBody reg (Config.Register reg st pre).2.1 e).1,
         (Config.registerEntryBody reg (Config.Register reg st pre).2.1 e).2.1,
         (Config.Register reg st pre).2.2
           ++ (Config.registerEntryBody reg (Config.Register reg st pre).2.1 e).2.2)
    ∧ ((reg (Config.Register reg st pre).2.1 f).1.isOk = false →
        (Config.registerEntryBody reg (Config.Register reg st pre).2.1 e).2.2
          = [Call.keyManager f]) := by
  constructor
  · rw [Config.register_append_of_ok reg st pre (e :: post) hpre]
    have hstep : Config.Register reg (Config.Register reg st pre).2.1 (e :: post)
        = Config.registerEntryBody reg (Config.Register reg st pre).2.1 e := by
      simp only [Config.Register]
      rw [if_neg (by simp [hfail])]
    rw [hstep]
  · intro hkmf
    rw [Config.entryBody_spec, hfam]
    simp [hkmf]

/-- Concrete run for C2: with a failing AEAD delegate, the configuration
`[Mac, Aead, StreamingAead]` stops at the second entry: the MAC calls
happened, the AEAD key-manager call failed, its wrapper step and the
third entry never ran. -/
theorem Config.register_stops_at_first_failure_witness :
    Config.Register aeadFailsOracle ()
        ([⟨"c1", "Mac", "u1", 0, true⟩]
          ++ ⟨"c2", "Aead", "u2", 0, true⟩ :: [⟨"c3", "StreamingAead", "u3", 0, true⟩])
      = (Status.err .INTERNAL "delegate failure", (),
          [Call.keyManager Family.mac, Call.wrapper Family.mac,
            Call.keyManager Family.aead])
    ∧ ((aeadFailsOracle () Family.aead).1.isOk = false →
        (Config.registerEntryBody aeadFailsOracle () ⟨"c2", "Aead", "u2", 0, true⟩).2.2
          = [Call.keyManager Family.aead]) :=
  Config.register_stops_at_first_failure aeadFailsOracle ()
    [⟨"c1", "Mac", "u1", 0, true⟩] ⟨"c2", "Aead", "u2", 0, true⟩
    [⟨"c3", "StreamingAead", "u3", 0, true⟩] Family.aead
    (by decide) (by decide) (by decide)

/-- C9: the dispatch table of the key-manager step inside `Register` and
the dispatch table of `RegisterWrapper` are pointwise equal, so a
successfully processed entry triggers the one registration action of its
family twice: the key-manager call and the wrapper call hit the same
family delegate. -/
theorem Config.register_wrapper_dispatch_agree {σ : Type}
    (reg : σ → Family → Status × σ) (st : σ) (e : KeyTypeEntry) (f : Family)
    (n : String)
    (hfam : Config.registerFamilyTable (AsciiStrToLower e.primitive_name) = some f)
    (hkm : (reg st f).1 = Status.ok) :
    Config.registerFamilyTable n = Config.wrapperFamilyTable n
    ∧ (Config.registerEntryBody reg st e).2.2.map Call.family = [f, f] := by
  refine ⟨rfl, ?_⟩
  rw [Config.entryBody_spec, hfam]
  simp [hkm, Status.isOk, Call.family]

/-- Concrete run for C9: the tables agree at `publickeyverify`, and a
`Mac` entry calls the MAC registration action twice. -/
theorem Config.register_wrapper_dispatch_agree_witness :
    Config.registerFamilyTable "publickeyverify"
        = Config.wrapperFamilyTable "publickeyverify"
    ∧ (Config.registerEntryBody allOkOracle ()
          ⟨"SomeCatalogue", "Mac", "u", 0, true⟩).2.2.map Call.family
        = [Family.mac, Family.mac] :=
  Config.register_wrapper_dispatch_agree allOkOracle ()
    ⟨"SomeCatalogue", "Mac", "u", 0, true⟩ Family.mac "publickeyverify"
    (by decide) rfl

/-- C10: the result of `Register` (status, final registry state and
delegate-call trace) depends only on the sequence of `primitive_name`
fields: `type_url`, `catalogue_name`, `key_manager_version` and
`new_key_allowed` are never read. -/
theorem Config.register_depends_only_on_primitive_names {σ : Type}
    (reg : σ → Family → Status × σ) (st : σ) (cfg₁ cfg₂ : List KeyTypeEntry)
    (h : cfg₁.map KeyTypeEntry.primitive_name
      = cfg₂.map KeyTypeEntry.primitive_name) :
    Config.Register reg st cfg₁ = Config.Register reg st cfg₂ := by
  induction cfg₁ generalizing cfg₂ st with
  | nil =>
    cases cfg₂ with
    | nil => rfl
    | cons b m => simp at h
  | cons a l ih =>
    cases cfg₂ with
    | nil => simp at h
    | cons b m =>
      simp only [List.map_cons, List.cons.injEq] at h
      obtain ⟨h1, h2⟩ := h
      simp only [Config.Register]
      rw [Config.entryBody_primitive_name_only reg st a b h1]
      rw [ih _ _ h2]

/-- Concrete run for C10: two configurations equal only in their
`primitive_name` sequence produce identical results and traces. -/
theorem Config.register_depends_only_on_primitive_names_witness :
    Config.Register allOkOracle ()
        [⟨"CatalogueA", "Mac", "type.googleapis.com/a", 1, true⟩]
      = Config.Register allOkOracle ()
        [⟨"CatalogueB", "Mac", "type.googleapis.com/b", 7, false⟩] :=
  Config.register_depends_only_on_primitive_names allOkOracle () _ _ (by decide)

/-- C8: `RegisterWrapper` does not lowercase its argument: any name
outside the exact lowercase family names (such as `Aead`) is rejected
with `INVALID_ARGUMENT` and no delegate call, even though `Register`
resolves the same name case-insensitively and succeeds on it. -/
theorem Config.registerWrapper_exact_lowercase_only {σ : Type}
    (reg : σ → Family → Status × σ) (st : σ) (n : String)
    (h : Config.wrapperFamilyTable n = none) :
    Config.RegisterWrapper reg st n
      = (Status.err .INVALID_ARGUMENT
          ("Cannot register primitive wrapper for non-standard primitive "
            ++ n ++ " (call Registry::RegisterPrimitiveWrapper directly)"),
          st, [])
    ∧ Config.wrapperFamilyTable "Aead" = none
    ∧ Config.registerFamilyTable (AsciiStrToLower "Aead") = some Family.aead
    ∧ ((reg st Family.aead).1 = Status.ok →
        (reg (reg st Family.aead).2 Family.aead).1 = Status.ok →
        (Config.Register reg st
            [⟨"SomeCatalogue", "Aead",
              "type.googleapis.com/google.crypto.tink.AesGcmKey", 0, true⟩]).1
          = Status.ok) := by
  refine ⟨?_, by decide, by decide, ?_⟩
  · rw [Config.wrapper_spec, h]
  · intro hkm hw
    simp only [Config.Register, Config.entryBody_spec,
      show Config.registerFamilyTable (AsciiStrToLower "Aead") = some Family.aead
        from by decide, hkm]
    simp [Status.isOk, hw]

/-- Concrete run for C8: `RegisterWrapper` rejects `Aead` while
`Register` accepts a descriptor named `Aead`. -/
theorem Config.registerWrapper_exact_lowercase_only_witness :
    Config.RegisterWrapper allOkOracle () "Aead"
      = (Status.err .INVALID_ARGUMENT
          ("Cannot register primitive wrapper for non-standard primitive "
            ++ "Aead" ++ " (call Registry::RegisterPrimitiveWrapper directly)"),
          (), [])
    ∧ Config.wrapperFamilyTable "Aead" = none
    ∧ Config.registerFamilyTable (AsciiStrToLower "Aead") = some Family.aead
    ∧ ((allOkOracle () Family.aead).1 = Status.ok →
        (allOkOracle ((allOkOracle () Family.aead).2) Family.aead).1 = Status.ok →
        (Config.Register allOkOracle ()
            [⟨"SomeCatalogue", "Aead",
              "type.googleapis.com/google.crypto.tink.AesGcmKey", 0, true⟩]).1
          = Status.ok) :=
  Config.registerWrapper_exact_lowercase_only allOkOracle () "Aead" (by decide)
